import Mathlib

/-!
Verification development for the whats-up-doc healthcare-facility routing
service.  The definitions below are a shallow embedding of the JavaScript
source: the symptom-assessment client service (`src/unnamed/part_011`,
second document), the Node classify proxy and severity-based hospital
search (`src/unnamed/part_004`), the older backend router and pincode
resolver (`src/backend/server.js`), and the client-side result
transformation and government prioritisation (`src/unnamed/part_010`).
Database queries are modelled as pure functions over a list of rows with
SQL predicate semantics; external calls are modelled as explicit
`Option`/`Except` parameters.

Rational arithmetic: Batteries marks the `Rat` operations irreducible,
which blocks `decide` on concrete rational facts; restoring the default
reducibility is harmless (the kernel never consults reducibility hints)
and lets concrete searches evaluate.
-/

set_option allowUnsafeReducibility true in
attribute [semireducible] Rat.mul Rat.add Rat.sub Rat.div Rat.inv Rat.normalize Rat.ofScientific

/-- Boolean prefix test on lists; building block for the model of
JavaScript `String.prototype.includes`. -/
def hasPrefixL {α : Type} [DecidableEq α] : List α → List α → Bool
  | [], _ => true
  | _ :: _, [] => false
  | a :: as, b :: bs => decide (a = b) && hasPrefixL as bs

/-- Boolean contiguous-substring test on lists. -/
def hasInfixL {α : Type} [DecidableEq α] : List α → List α → Bool
  | pat, [] => pat.isEmpty
  | pat, b :: rest => hasPrefixL pat (b :: rest) || hasInfixL pat rest

/-- Model of JavaScript `s.includes(pat)` (contiguous substring test). -/
def strIncludes (s pat : String) : Bool :=
  hasInfixL pat.toList s.toList

/-- Model of JavaScript `s.toLowerCase()` (character-wise lowering). -/
def strToLower (s : String) : String :=
  ⟨s.data.map Char.toLower⟩

/-- Model of JavaScript `s.trim()`: strip leading and trailing whitespace. -/
def strTrim (s : String) : String :=
  ⟨((s.data.dropWhile Char.isWhitespace).reverse.dropWhile Char.isWhitespace).reverse⟩

/-- Model of JavaScript `parts.join(sep)`. -/
def joinSep (sep : String) : List String → String
  | [] => ""
  | [a] => a
  | a :: rest => a ++ sep ++ joinSep sep rest

/-- The instant client-side emergency term list of
`src/unnamed/part_011` (`INSTANT_EMERGENCY_TERMS`). -/
def INSTANT_EMERGENCY_TERMS : List String := [
  "chest pain", "heart attack", "cardiac arrest",
  "not breathing", "cannot breathe", "can\x27t breathe", "saans nahi",
  "unconscious", "behosh", "passed out",
  "seizure", "convulsion", "fits", "daura",
  "stroke", "paralysis", "face drooping",
  "severe bleeding", "bleeding heavily", "tez khoon",
  "labour pain", "water broke", "pani toot gaya", "prasav dard",
  "baby not moving", "newborn not breathing",
  "poisoning", "overdose", "suicidal",
  "snake bite", "anaphylaxis", "throat swelling",
  "seena dard", "dil ka daura"]

/-- Result record of `instantEmergencyCheck`. -/
structure EmergencyCheck where
  isEmergency : Bool
  keywords : List String
deriving DecidableEq

/-- `instantEmergencyCheck` of `src/unnamed/part_011`: case-insensitive
substring scan of the input text against the instant emergency terms. -/
def instantEmergencyCheck (text : String) : EmergencyCheck :=
  let lower := strToLower text
  let found := INSTANT_EMERGENCY_TERMS.filter (fun k => strIncludes lower k)
  { isEmergency := decide (0 < found.length), keywords := found }

/-- Shape of a response of the external `/api/assess` service as consumed
by the client (`data.*` field accesses in `assess`); `Option` marks fields
that may be absent in the JSON. -/
structure ExternalResponse where
  severity : Int
  severityLevel : String
  specialties : Option (List String)
  isAutoEmergency : Bool
  detectedKeywords : Option (List String)
  requiresTrauma : Bool
  requiresMaternityWard : Bool
  requiresNICU : Bool
  needsClarification : Bool
  clarifyingQuestions : Option (List String)
  stage1Cache : Option String
  primaryDepartment : Option String
  recommendedAction : Option String
  reasoning : Option String
  redFlags : Option (List String)
  disclaimer : Option String
  assessmentMode : String
deriving DecidableEq

/-- The Assessment object returned by `AssessmentService.assess` in
`src/unnamed/part_011` (second document). -/
structure Assessment where
  severity : Int
  severityLevel : String
  specialties : List String
  isAutoEmergency : Bool
  detectedKeywords : List String
  requiresTrauma : Bool
  requiresMaternityWard : Bool
  requiresNICU : Bool
  needsClarification : Bool
  clarifyingQuestions : List String
  stage1Cache : Option String
  primaryDepartment : Option String
  recommendation : Option String
  recommendedAction : Option String
  reasoning : Option String
  redFlags : List String
  disclaimer : String
  assessmentMode : String
deriving DecidableEq

/-- JavaScript `x || default` on an optional string (empty string is falsy). -/
def jsOrStr (o : Option String) (d : String) : String :=
  match o with
  | some s => if s = "" then d else s
  | none => d

/-- JavaScript `x || null` on an optional string (empty string collapses to null). -/
def jsOrNullStr (o : Option String) : Option String :=
  match o with
  | some s => if s = "" then none else some s
  | none => none

/-- The combined symptom text built at the top of `assess`:
`parts = [ids.join(', ')?, condition.trim()?].join('. ')`. -/
def symptomTextOf (symptomIds : List String) (condition : String) : String :=
  let parts : List String :=
    (if 0 < symptomIds.length then [joinSep ", " symptomIds] else [])
      ++ (if strTrim condition = "" then [] else [strTrim condition])
  joinSep ". " parts

/-- `AssessmentService._fallback` of `src/unnamed/part_011`: the Assessment
returned for empty input text. -/
def assessmentFallback (message : String) : Assessment :=
  { severity := 3
    severityLevel := "mild"
    specialties := ["General Medicine"]
    isAutoEmergency := false
    detectedKeywords := []
    requiresTrauma := false
    requiresMaternityWard := false
    requiresNICU := false
    needsClarification := false
    clarifyingQuestions := []
    stage1Cache := none
    primaryDepartment := some "General Medicine"
    recommendation := some message
    recommendedAction := some message
    reasoning := some message
    redFlags := []
    disclaimer := "This is not a medical diagnosis."
    assessmentMode := "fallback" }

/-- The keyword-to-department table of `AssessmentService._clientFallback`
(`deptMap`), in JavaScript object insertion order. -/
def deptMap : List (String × String) := [
  ("chest", "Cardiology"), ("heart", "Cardiology"),
  ("breathing", "Pulmonology"), ("cough", "Pulmonology"),
  ("stomach", "Gastroenterology"), ("abdomen", "Gastroenterology"),
  ("headache", "Neurology"), ("head", "Neurology"),
  ("skin", "Dermatology"), ("rash", "Dermatology"),
  ("eye", "Ophthalmology"), ("ear", "ENT"), ("throat", "ENT"),
  ("joint", "Orthopedics"), ("bone", "Orthopedics"), ("back", "Orthopedics"),
  ("child", "Pediatrics"), ("baby", "Pediatrics"), ("bachha", "Pediatrics"),
  ("pregnant", "Obstetrics"), ("pregnancy", "Obstetrics"), ("labour", "Obstetrics"),
  ("period", "Gynecology"), ("tooth", "Dental"),
  ("urine", "Urology"), ("mental", "Psychiatry"), ("anxiety", "Psychiatry")]

/-- `AssessmentService._clientFallback` of `src/unnamed/part_011`: the
Assessment produced when the external `/api/assess` call fails. -/
def clientFallback (symptomText : String) (instant : EmergencyCheck) : Assessment :=
  let lower := strToLower symptomText
  if instant.isEmergency then
    let isObstetric :=
      ["labour", "prasav", "water broke", "baby not moving"].any
        (fun t => strIncludes lower t)
    { severity := 9
      severityLevel := "emergency"
      specialties := if isObstetric then ["Obstetrics", "Emergency"] else ["Emergency"]
      isAutoEmergency := true
      detectedKeywords := instant.keywords
      requiresTrauma :=
        ["accident", "injury", "trauma"].any (fun t => strIncludes lower t)
      requiresMaternityWard := isObstetric
      requiresNICU := false
      needsClarification := false
      clarifyingQuestions := []
      stage1Cache := none
      primaryDepartment := some (if isObstetric then "Obstetrics" else "Emergency")
      recommendation := some (if isObstetric then
        "Go to nearest hospital with maternity ward immediately."
        else "Call 108 immediately or go to nearest emergency dept.")
      recommendedAction := some (if isObstetric then
        "Go to nearest hospital with maternity ward immediately."
        else "Call 108 immediately.")
      reasoning := some "Emergency symptoms detected (offline assessment)."
      redFlags := instant.keywords
      disclaimer := "This is not a medical diagnosis."
      assessmentMode := "client-fallback" }
  else
    let dept :=
      ((deptMap.find? (fun p => strIncludes lower p.1)).map Prod.snd).getD
        "General Medicine"
    let isHigh :=
      ["severe", "high fever", "tez bukhar", "blood", "confusion", "dengue"].any
        (fun t => strIncludes lower t)
    { severity := if isHigh then 7 else 3
      severityLevel := if isHigh then "high" else "mild"
      specialties := [dept]
      isAutoEmergency := false
      detectedKeywords := []
      requiresTrauma := false
      requiresMaternityWard := false
      requiresNICU := false
      needsClarification := false
      clarifyingQuestions := []
      stage1Cache := none
      primaryDepartment := some dept
      recommendation := some (if isHigh then "Visit a hospital soon." else "Visit a nearby clinic.")
      recommendedAction := some (if isHigh then "Visit a hospital soon." else "Visit a nearby clinic.")
      reasoning := some "AI assessment unavailable. Showing nearby hospitals."
      redFlags := []
      disclaimer := "This is not a medical diagnosis."
      assessmentMode := "client-fallback" }

/-- The success-branch mapping of `assess`: backend response fields mapped
to the Assessment shape expected by the UI. -/
def mapApiResponse (data : ExternalResponse) (instant : EmergencyCheck) : Assessment :=
  { severity := data.severity
    severityLevel := data.severityLevel
    specialties := data.specialties.getD ["General Medicine"]
    isAutoEmergency := data.isAutoEmergency || instant.isEmergency
    detectedKeywords :=
      match data.detectedKeywords with
      | some l => if 0 < l.length then l else instant.keywords
      | none => instant.keywords
    requiresTrauma := data.requiresTrauma
    requiresMaternityWard := data.requiresMaternityWard
    requiresNICU := data.requiresNICU
    needsClarification := data.needsClarification
    clarifyingQuestions := data.clarifyingQuestions.getD []
    stage1Cache := jsOrNullStr data.stage1Cache
    primaryDepartment := data.primaryDepartment
    recommendation := data.recommendedAction
    recommendedAction := data.recommendedAction
    reasoning := data.reasoning
    redFlags := data.redFlags.getD []
    disclaimer := jsOrStr data.disclaimer "This is not a medical diagnosis."
    assessmentMode := data.assessmentMode }

/-- `AssessmentService.assess` of `src/unnamed/part_011` (second document).
The external `/api/assess` call is modelled by `apiResult`: `some data`
when the service responds OK with `data`, `none` when the fetch throws or
the response is non-OK (both reach the `catch` branch in the source). -/
def assess (symptomIds : List String) (condition : String)
    (apiResult : Option ExternalResponse) : Assessment :=
  let symptomText := symptomTextOf symptomIds condition
  if strTrim symptomText = "" then
    assessmentFallback "Please describe your symptoms."
  else
    let instant := instantEmergencyCheck symptomText
    match apiResult with
    | some data => mapApiResponse data instant
    | none => clientFallback symptomText instant

/-- Outcome of the proxied call to the Python classifier backend in
`POST /api/symptoms/classify` (`src/unnamed/part_004`): an HTTP reply with
a status, or an unreachable backend (fetch threw). -/
inductive PyBackendResult where
  | reply (status : Nat) (body : String)
  | unreachable (message : String)
deriving DecidableEq

/-- HTTP status returned by the `POST /api/symptoms/classify` handler of
`src/unnamed/part_004`: 400 when `text` is missing or empty (falsy),
otherwise 200 on an OK upstream reply, the forwarded upstream status on a
non-OK reply, and 502 when the Python backend is unreachable. -/
def classifyProxyStatus (text : Option String) (py : PyBackendResult) : Nat :=
  match text with
  | none => 400
  | some t =>
    if t = "" then 400
    else
      match py with
      | .reply s _ => if 200 ≤ s ∧ s < 300 then 200 else s
      | .unreachable _ => 502

/-- A row of the `hospitals` table as used by the severity-based search.
`distKm` is the great-circle distance (km) from the query point, the value
PostGIS computes via `ST_Distance`; `location = none` models a NULL
geography column. -/
structure HospitalRow where
  id : Nat
  hospitalName : String
  hospitalCategory : Option String
  hospitalCareType : Option String
  discipline : Option String
  ayush : Bool
  specialtiesArray : List String
  emergencyAvailable : Bool
  dataQualityNorm : ℚ
  location : Option (ℚ × ℚ)
  distKm : ℚ
deriving DecidableEq

/-- One entry of `SEVERITY_CONFIG` in `src/unnamed/part_004`. -/
structure SeverityConfig where
  emergencyOnly : Bool
  careTypes : List String
  initialRadius : Nat
  level : String
deriving DecidableEq

/-- `SEVERITY_CONFIG.mild` of `src/unnamed/part_004`. -/
def mildConfig : SeverityConfig :=
  { emergencyOnly := false
    careTypes := ["Hospital", "Dispensary/ Poly Clinic", "Health Centre", "Clinic"]
    initialRadius := 5, level := "Mild" }

/-- `SEVERITY_CONFIG.moderate` of `src/unnamed/part_004`. -/
def moderateConfig : SeverityConfig :=
  { emergencyOnly := false
    careTypes := ["Hospital", "Clinic", "Nursing Home", "Medical College / Institute/Hospital"]
    initialRadius := 8, level := "Moderate" }

/-- `SEVERITY_CONFIG.high` of `src/unnamed/part_004`. -/
def highConfig : SeverityConfig :=
  { emergencyOnly := false
    careTypes := ["Hospital", "Medical College / Institute/Hospital"]
    initialRadius := 12, level := "High" }

/-- `SEVERITY_CONFIG.emergency` of `src/unnamed/part_004`. -/
def emergencyConfig : SeverityConfig :=
  { emergencyOnly := true
    careTypes := ["Hospital", "Medical College / Institute/Hospital"]
    initialRadius := 12, level := "Emergency" }

/-- The `SEVERITY_CONFIG[severityLevel]` lookup of `src/unnamed/part_004`. -/
def SEVERITY_CONFIG (s : String) : Option SeverityConfig :=
  if s = "mild" then some mildConfig
  else if s = "moderate" then some moderateConfig
  else if s = "high" then some highConfig
  else if s = "emergency" then some emergencyConfig
  else none

/-- `RADIUS_STEPS` of `src/unnamed/part_004`. -/
def RADIUS_STEPS : List Nat := [5, 8, 12, 20]

/-- `MIN_RESULTS` of `src/unnamed/part_004`. -/
def MIN_RESULTS : Nat := 3

/-- The shared WHERE clause of `queryHospitals` in `src/unnamed/part_004`:
`ST_DWithin(location, pt, radiusMetres) AND location IS NOT NULL AND
data_quality_norm >= 0`.  A NULL location fails `ST_DWithin` as well. -/
def baseFilter (radiusMetres : ℚ) (table : List HospitalRow) : List HospitalRow :=
  table.filter (fun h =>
    h.location.isSome && decide (h.distKm * 1000 ≤ radiusMetres)
      && decide ((0 : ℚ) ≤ h.dataQualityNorm))

/-- `hospital_care_type = ANY(config.careTypes) OR hospital_care_type IS NULL`. -/
def careTypeOk (cfg : SeverityConfig) (h : HospitalRow) : Bool :=
  match h.hospitalCareType with
  | none => true
  | some ct => decide (ct ∈ cfg.careTypes)

/-- `specialties_array @> ARRAY[specialty]` when a specialty is present. -/
def specialtyOk (sp : Option String) (h : HospitalRow) : Bool :=
  match sp with
  | none => true
  | some s => decide (s ∈ h.specialtiesArray)

/-- The ordering relation of `ORDER BY location <-> pt`: ascending
distance from the query point. -/
def distRel (a b : HospitalRow) : Prop :=
  a.distKm ≤ b.distKm

instance : DecidableRel distRel := fun a b =>
  inferInstanceAs (Decidable (a.distKm ≤ b.distKm))

/-- `ORDER BY location <-> pt` as a stable sort by ascending distance. -/
def sortByDistance (l : List HospitalRow) : List HospitalRow :=
  l.insertionSort distRel

/-- Sort key rank of the emergency fallback ordering
(`CASE WHEN emergency_available THEN 0 ELSE 1 END`). -/
def emergencyRank (h : HospitalRow) : Nat :=
  if h.emergencyAvailable then 0 else 1

/-- The ordering of the emergency fallback query:
`CASE WHEN emergency_available THEN 0 ELSE 1 END` first, distance second. -/
def emergencyRel (a b : HospitalRow) : Prop :=
  emergencyRank a < emergencyRank b
    ∨ (emergencyRank a = emergencyRank b ∧ a.distKm ≤ b.distKm)

instance : DecidableRel emergencyRel := fun a b =>
  inferInstanceAs (Decidable (emergencyRank a < emergencyRank b
    ∨ (emergencyRank a = emergencyRank b ∧ a.distKm ≤ b.distKm)))

/-- `ORDER BY CASE WHEN emergency_available THEN 0 ELSE 1 END, distance`. -/
def sortEmergencyFirst (l : List HospitalRow) : List HospitalRow :=
  l.insertionSort emergencyRel

/-- `queryHospitals` of `src/unnamed/part_004`: the per-radius query.
For `emergencyOnly` configs it first requires `emergency_available = TRUE`
and, when that yields fewer than `MIN_RESULTS` rows, reissues the query
without that requirement sorted emergency-first; otherwise it applies the
care-type allowlist (NULL admitted).  Both shapes end with `LIMIT 20`. -/
def queryHospitals (table : List HospitalRow) (radiusMetres : ℚ)
    (cfg : SeverityConfig) (specialty : Option String) : List HospitalRow :=
  let base := baseFilter radiusMetres table
  if cfg.emergencyOnly then
    let emergencyRows :=
      (sortByDistance (base.filter (fun h =>
        h.emergencyAvailable && specialtyOk specialty h))).take 20
    if MIN_RESULTS ≤ emergencyRows.length then emergencyRows
    else (sortEmergencyFirst (base.filter (fun h => specialtyOk specialty h))).take 20
  else
    (sortByDistance (base.filter (fun h =>
      careTypeOk cfg h && specialtyOk specialty h))).take 20

/-- Result record of `queryWithExpansion` in `src/unnamed/part_004`. -/
structure SearchResult where
  hospitals : List HospitalRow
  radiusUsed : Nat
  specialtyFiltered : Bool
deriving DecidableEq

/-- Pass 1 of `queryWithExpansion` (`src/unnamed/part_004`): walk the radii
with the specialty filter, returning at the first radius with at least
`MIN_RESULTS` rows. -/
def expansionPass1 (table : List HospitalRow) (cfg : SeverityConfig)
    (sp : String) : List Nat → Option SearchResult
  | [] => none
  | r :: rest =>
    let rows := queryHospitals table ((r : ℚ) * 1000) cfg (some sp)
    if MIN_RESULTS ≤ rows.length then some ⟨rows, r, true⟩
    else expansionPass1 table cfg sp rest

/-- Pass 2 of `queryWithExpansion` (`src/unnamed/part_004`): walk the radii
without the specialty filter, returning at the first non-empty radius. -/
def expansionPass2 (table : List HospitalRow) (cfg : SeverityConfig) :
    List Nat → Option SearchResult
  | [] => none
  | r :: rest =>
    let rows := queryHospitals table ((r : ℚ) * 1000) cfg none
    if 0 < rows.length then some ⟨rows, r, false⟩
    else expansionPass2 table cfg rest

/-- The radius walk of `queryWithExpansion` (`src/unnamed/part_004`):
`RADIUS_STEPS` at or above the level's initial radius. -/
def routerRadii (cfg : SeverityConfig) : List Nat :=
  RADIUS_STEPS.filter (fun r => cfg.initialRadius ≤ r)

/-- `specialties?.[0] || null` in `queryWithExpansion`
(`src/unnamed/part_004`): the primary specialty, with a falsy first
element collapsing to null. -/
def routerSpecialty (specialties : List String) : Option String :=
  match specialties.head? with
  | some s => if s = "" then none else some s
  | none => none

/-- `queryWithExpansion` of `src/unnamed/part_004`: pass 1 (with the
primary specialty) walks all radii first; pass 2 (without it) runs only
when pass 1 never reached `MIN_RESULTS`; the default is an empty set at
20 km. -/
def queryWithExpansion (table : List HospitalRow) (cfg : SeverityConfig)
    (specialties : List String) : SearchResult :=
  let afterPass1 : Option SearchResult :=
    match routerSpecialty specialties with
    | some sp => expansionPass1 table cfg sp (routerRadii cfg)
    | none => none
  match afterPass1 with
  | some res => res
  | none => (expansionPass2 table cfg (routerRadii cfg)).getD ⟨[], 20, false⟩

/-- Router described by the specification's words for claim C5 ("Pass 2
(relaxed): if pass 1 returned fewer than MIN_RESULTS results, retry at the
same radius without the specialty filter; if the pass-2 result count at a
radius is still below threshold, advance to the next radius"); written
only for comparison with `queryWithExpansion`. -/
def specRouterPerRadius (table : List HospitalRow) (cfg : SeverityConfig)
    (sp : String) : List Nat → SearchResult
  | [] => ⟨[], 20, false⟩
  | r :: rest =>
    let strictRows := queryHospitals table ((r : ℚ) * 1000) cfg (some sp)
    if MIN_RESULTS ≤ strictRows.length then ⟨strictRows, r, true⟩
    else
      let relaxedRows := queryHospitals table ((r : ℚ) * 1000) cfg none
      if MIN_RESULTS ≤ relaxedRows.length then ⟨relaxedRows, r, false⟩
      else specRouterPerRadius table cfg sp rest

/-- `queryWithExpansion` of `src/unnamed/part_004` with the database calls
made fallible, mirroring the source's lack of a per-query catch: any
`pool.query` rejection propagates out of the whole search (pass 1). -/
def expansionPass1E (q : Nat → Option String → Except String (List HospitalRow))
    (sp : String) : List Nat → Except String (Option SearchResult)
  | [] => .ok none
  | r :: rest => do
    let rows ← q r (some sp)
    if MIN_RESULTS ≤ rows.length then pure (some ⟨rows, r, true⟩)
    else expansionPass1E q sp rest

/-- Fallible pass 2 of `queryWithExpansion` (`src/unnamed/part_004`). -/
def expansionPass2E (q : Nat → Option String → Except String (List HospitalRow)) :
    List Nat → Except String (Option SearchResult)
  | [] => .ok none
  | r :: rest => do
    let rows ← q r none
    if 0 < rows.length then pure (some ⟨rows, r, false⟩)
    else expansionPass2E q rest

/-- Fallible `queryWithExpansion` of `src/unnamed/part_004`: `q radius
specialty` models the `queryHospitals` database call, which may reject;
there is no try/catch inside the search, so the first rejection aborts it
(the route handler then answers 500). -/
def queryWithExpansionE (q : Nat → Option String → Except String (List HospitalRow))
    (cfg : SeverityConfig) (specialties : List String) :
    Except String SearchResult := do
  let afterPass1 ←
    match routerSpecialty specialties with
    | some sp => expansionPass1E q sp (routerRadii cfg)
    | none => pure none
  match afterPass1 with
  | some res => pure res
  | none => do
    let p2 ← expansionPass2E q (routerRadii cfg)
    pure (p2.getD ⟨[], 20, false⟩)

/-- Result record of `queryWithExpansion` in `src/backend/server.js`
(that variant has no `specialtyFiltered` tag). -/
structure SearchResultJS where
  hospitals : List HospitalRow
  radiusUsed : Nat
deriving DecidableEq

/-- Insertion-ordered deduplication, modelling
`[...new Set(list)]` in `src/backend/server.js`. -/
def insertionDedup : List Nat → List Nat
  | [] => []
  | a :: rest => a :: insertionDedup (rest.filter (fun b => b ≠ a))
termination_by l => l.length
decreasing_by
  simp only [List.length_cons]
  exact Nat.lt_succ_of_le (List.length_filter_le _ _)

/-- `runQuery` of `src/backend/server.js`: the per-radius query with its
own try/catch — a database failure is logged and becomes an empty row
set.  `q radius strict` models the underlying `pool.query` call. -/
def runQueryJS (q : Nat → Bool → Except String (List HospitalRow))
    (r : Nat) (strict : Bool) : List HospitalRow :=
  match q r strict with
  | .ok rows => rows
  | .error _ => []

/-- The radius loop of `queryWithExpansion` in `src/backend/server.js`:
strict pass then relaxed pass at each radius, first non-empty wins,
default empty at 50 km. -/
def expansionLoopJS (q : Nat → Bool → Except String (List HospitalRow)) :
    List Nat → SearchResultJS
  | [] => ⟨[], 50⟩
  | r :: rest =>
    let pass1 := runQueryJS q r true
    if 0 < pass1.length then ⟨pass1, r⟩
    else
      let pass2 := runQueryJS q r false
      if 0 < pass2.length then ⟨pass2, r⟩
      else expansionLoopJS q rest

/-- `queryWithExpansion` of `src/backend/server.js`: radii are the
deduplicated sequence `[initialRadius, ...RADIUS_STEPS(≥initial), 30, 50]`
with that file's `RADIUS_STEPS = [3, 5, 10, 20]`. -/
def queryWithExpansionJS (q : Nat → Bool → Except String (List HospitalRow))
    (cfg : SeverityConfig) : SearchResultJS :=
  expansionLoopJS q
    (insertionDedup ([cfg.initialRadius]
      ++ [3, 5, 10, 20].filter (fun r => cfg.initialRadius ≤ r) ++ [30, 50]))

/-- JavaScript truthiness of an optional numeric value (`null`, `undefined`
and `0` are falsy), used for the `h.latitude && h.longitude` filter in
`src/unnamed/part_010`. -/
def jsTruthyQ (o : Option ℚ) : Bool :=
  match o with
  | some q => decide (q ≠ 0)
  | none => false

/-- A facility as shaped by the `transformedFacilities` mapping of
`src/unnamed/part_010` (the fields the filter/prioritise step reads). -/
structure Facility where
  id : Nat
  name : String
  category : String
  isGovernment : Bool
  isAyush : Bool
  distanceKm : ℚ
  emergencyAvailable : Bool
  dataQuality : ℚ
deriving DecidableEq

/-- The per-row mapping inside `transformedFacilities`
(`src/unnamed/part_010`): `category = hospital_category || ''`,
`isGovernment` from a case-insensitive substring match on `gov` or
`public`, `isAyush` from the ayush flag or the discipline string. -/
def transformFacility (h : HospitalRow) : Facility :=
  let cat := h.hospitalCategory.getD ""
  { id := h.id
    name := h.hospitalName
    category := cat
    isGovernment :=
      strIncludes (strToLower cat) "gov" || strIncludes (strToLower cat) "public"
    isAyush :=
      h.ayush || strIncludes (strToLower (h.discipline.getD "")) "ayush"
    distanceKm := h.distKm
    emergencyAvailable := h.emergencyAvailable
    dataQuality := h.dataQualityNorm }

/-- `transformedFacilities` of `src/unnamed/part_010`: drop rows whose
flattened latitude/longitude are falsy, then map each row. -/
def transformFacilities (rows : List HospitalRow) : List Facility :=
  (rows.filter (fun h =>
    jsTruthyQ (h.location.map Prod.fst) && jsTruthyQ (h.location.map Prod.snd))).map
    transformFacility

/-- The government test used by `getFilteredAndPrioritizedHospitals`
(`src/unnamed/part_010`): the transformed flag, or a case-insensitive
`government` substring of `category`. -/
def prioGovTag (h : Facility) : Bool :=
  h.isGovernment || strIncludes (strToLower h.category) "government"

/-- The AYUSH test used by `getFilteredAndPrioritizedHospitals`. -/
def prioAyushTag (h : Facility) : Bool :=
  strIncludes (strToLower h.category) "ayush"

/-- The comparator of the mild/moderate sort in
`getFilteredAndPrioritizedHospitals`, as the ordering relation of a
stable sort (JavaScript `Array.prototype.sort` is stable): government
facilities first, distance ascending within each group — the JavaScript
comparator returns a non-positive value exactly when this holds. -/
def prioRel (a b : Facility) : Prop :=
  (prioGovTag a = true ∧ prioGovTag b = false)
    ∨ (prioGovTag a = prioGovTag b ∧ a.distanceKm ≤ b.distanceKm)

instance : DecidableRel prioRel := fun a b =>
  inferInstanceAs (Decidable ((prioGovTag a = true ∧ prioGovTag b = false)
    ∨ (prioGovTag a = prioGovTag b ∧ a.distanceKm ≤ b.distanceKm)))

/-- The checkbox filter of `getFilteredAndPrioritizedHospitals`
(`src/unnamed/part_010`): the Sarkari / Private / AYUSH toggles. -/
def checkboxKeep (showSarkari showPrivate showAyush : Bool) (h : Facility) : Bool :=
  let isGov := prioGovTag h
  let isAy := prioAyushTag h
  let isPriv := !isGov && !isAy
  !(isGov && !showSarkari) && !(isPriv && !showPrivate) && !(isAy && !showAyush)

/-- `getFilteredAndPrioritizedHospitals` of `src/unnamed/part_010`:
checkbox filtering followed, for mild and moderate severity only, by the
government-first distance sort. -/
def getFilteredAndPrioritizedHospitals (showSarkari showPrivate showAyush : Bool)
    (hospitals : List Facility) (severityLevel : String) : List Facility :=
  let filtered := hospitals.filter (checkboxKeep showSarkari showPrivate showAyush)
  if severityLevel = "mild" || severityLevel = "moderate" then
    filtered.insertionSort prioRel
  else filtered

/-- The government tag exactly as claim C6 words it: a case-insensitive
substring match on `gov` or `public` against the facility's category. -/
def claimGovTag (h : Facility) : Bool :=
  strIncludes (strToLower h.category) "gov" || strIncludes (strToLower h.category) "public"

/-- A row of the `hospitals` table as read by the pincode endpoints
(postal code, administrative labels and the geographic point). -/
structure PinRow where
  pincode : String
  state : String
  district : String
  location : Option (ℚ × ℚ)
deriving DecidableEq

/-- The India bounding box test of the `src/unnamed/part_004` pincode
query: `ST_Y BETWEEN 6.0 AND 37.5 AND ST_X BETWEEN 68.0 AND 97.5`
(stored as (latitude, longitude)). -/
def inIndiaBbox (p : ℚ × ℚ) : Bool :=
  decide (6 ≤ p.1 ∧ p.1 ≤ 37.5 ∧ 68 ≤ p.2 ∧ p.2 ≤ 97.5)

/-- Result of a local pincode centroid query. -/
structure PinResolution where
  latitude : ℚ
  longitude : ℚ
  hospitalCount : Nat
  state : String
  district : String
deriving DecidableEq

/-- `PERCENTILE_CONT(0.5) WITHIN GROUP (ORDER BY v)`: the continuous
median — middle element for odd counts, mean of the two middle elements
for even counts. -/
def medianQ (l : List ℚ) : ℚ :=
  let s := l.insertionSort (fun a b => a ≤ b)
  let n := s.length
  if n % 2 = 1 then s.getD (n / 2) 0
  else (s.getD (n / 2 - 1) 0 + s.getD (n / 2) 0) / 2

/-- Arithmetic mean (`AVG`). -/
def meanQ (l : List ℚ) : ℚ :=
  l.sum / (l.length : ℚ)

/-- Latitude of a pin row with a stored location (callers filter out NULL
locations first). -/
def pinLat (r : PinRow) : ℚ := (r.location.map Prod.fst).getD 0

/-- Longitude of a pin row with a stored location. -/
def pinLng (r : PinRow) : ℚ := (r.location.map Prod.snd).getD 0

/-- The `GET /api/pincode/:pincode` query of `src/unnamed/part_004`:
rows sharing the code, with a non-null location inside the India bounding
box, grouped by (pincode, state, district); `LIMIT 1` keeps one group —
modelled as the group of the first qualifying row — and the coordinate is
the per-column `PERCENTILE_CONT(0.5)` median. -/
def pincodeLookupMedian (table : List PinRow) (code : String) :
    Option PinResolution :=
  let rows := table.filter (fun r =>
    decide (r.pincode = code)
      && (match r.location with
          | none => false
          | some p => inIndiaBbox p))
  match rows.head? with
  | none => none
  | some r0 =>
    let grp := rows.filter (fun r =>
      decide (r.state = r0.state) && decide (r.district = r0.district))
    some { latitude := medianQ (grp.map pinLat)
           longitude := medianQ (grp.map pinLng)
           hospitalCount := grp.length
           state := r0.state
           district := r0.district }

/-- Strategy 2 (`DB exact pincode`) of `GET /api/pincode/:pincode` in
`src/backend/server.js`: rows sharing the code with a non-null location
(no bounding-box condition), grouped by (pincode, state, district) with
`LIMIT 1`, and the coordinate is the per-column `AVG` — the mean. -/
def pincodeDbExactMean (table : List PinRow) (code : String) :
    Option PinResolution :=
  let rows := table.filter (fun r =>
    decide (r.pincode = code) && r.location.isSome)
  match rows.head? with
  | none => none
  | some r0 =>
    let grp := rows.filter (fun r =>
      decide (r.state = r0.state) && decide (r.district = r0.district))
    some { latitude := meanQ (grp.map pinLat)
           longitude := meanQ (grp.map pinLng)
           hospitalCount := grp.length
           state := r0.state
           district := r0.district }

/-- A concrete mild response of the external assessment service, used to
exercise the success branch of `assess`. -/
def mildExternalResponse : ExternalResponse :=
  { severity := 3
    severityLevel := "mild"
    specialties := some ["Gastroenterology"]
    isAutoEmergency := false
    detectedKeywords := some ["indigestion"]
    requiresTrauma := false
    requiresMaternityWard := false
    requiresNICU := false
    needsClarification := false
    clarifyingQuestions := some []
    stage1Cache := none
    primaryDepartment := some "Gastroenterology"
    recommendedAction := some "Visit a clinic."
    reasoning := some "Mild digestive complaint."
    redFlags := some []
    disclaimer := some "This is not a medical diagnosis."
    assessmentMode := "two-stage" }

/-- Hospital-row fixture builder for concrete tables (Bengaluru-area
coordinates; `distKm` is the row's distance from the query point). -/
def mkRow (i : Nat) (d : ℚ) (quality : ℚ) (careType : Option String)
    (specs : List String) (cat : Option String) (emerg : Bool) : HospitalRow :=
  { id := i
    hospitalName := "Facility"
    hospitalCategory := cat
    hospitalCareType := careType
    discipline := none
    ayush := false
    specialtiesArray := specs
    emergencyAvailable := emerg
    dataQualityNorm := quality
    location := some (13, 77.5)
    distKm := d }

/-- A facility row whose normalized data quality (0.1) is below 0.3 but
not below 0 — it passes the search's actual gate. -/
def rowLowQuality : HospitalRow :=
  mkRow 1 2 (1 / 10) none [] (some "Private") false

/-- General-medicine rows within 5 km (no Cardiology). -/
def c5Table : List HospitalRow :=
  [mkRow 1 2 (1 / 2) none ["General Medicine"] none false,
   mkRow 2 3 (1 / 2) none ["General Medicine"] none false,
   mkRow 3 4 (1 / 2) none ["General Medicine"] none false,
   mkRow 4 6 (1 / 2) none ["Cardiology"] none false,
   mkRow 5 7 (1 / 2) none ["Cardiology"] none false,
   mkRow 6 (15 / 2) (1 / 2) none ["Cardiology"] none false]

/-- A clinic 3 km away: non-null `hospital_care_type = 'Clinic'`, good
quality, valid location. -/
def rowClinic : HospitalRow :=
  mkRow 7 3 (1 / 2) (some "Clinic") [] (some "Private") false

/-- The same facility with `hospital_care_type` NULL. -/
def rowClinicNull : HospitalRow :=
  mkRow 7 3 (1 / 2) none [] (some "Private") false

/-- A store oracle that rejects at radius 5 and returns three rows at
every other radius, modelling a transient failure of one expansion step. -/
def failingStore (r : Nat) (_sp : Option String) : Except String (List HospitalRow) :=
  if r = 5 then .error "connection terminated"
  else .ok [mkRow 1 2 (1 / 2) none [] none false,
            mkRow 2 3 (1 / 2) none [] none false,
            mkRow 3 4 (1 / 2) none [] none false]

/-- Pincode rows sharing code 560001 in one (state, district) group; the
third row's stored coordinates (100, 150) lie far outside the India
bounding box. -/
def c7Table : List PinRow :=
  [⟨"560001", "Karnataka", "Bengaluru Urban", some (10, 70)⟩,
   ⟨"560001", "Karnataka", "Bengaluru Urban", some (20, 71)⟩,
   ⟨"560001", "Karnataka", "Bengaluru Urban", some (100, 150)⟩]

/-- Backend rows for the prioritisation witness: distance-sorted, with a
government-category facility second. -/
def c6Rows : List HospitalRow :=
  [mkRow 1 1 (1 / 2) none [] (some "Private Hospital") false,
   mkRow 2 2 (1 / 2) none [] (some "Public/ Government") false,
   mkRow 3 3 (1 / 2) none [] (some "Private Clinic") false]

/-- The emergency-first rank on transformed facilities (the image of
`emergencyRank` under the `src/unnamed/part_010` transform). -/
def facilityEmergencyRank (h : Facility) : Nat :=
  if h.emergencyAvailable then 0 else 1

/-- The emergency-first ordering on transformed facilities:
emergency-capable records first, ascending distance within each group —
the order the backend's emergency fallback query produces. -/
def facilityEmergencyRel (a b : Facility) : Prop :=
  facilityEmergencyRank a < facilityEmergencyRank b
    ∨ (facilityEmergencyRank a = facilityEmergencyRank b ∧ a.distanceKm ≤ b.distanceKm)

instance : DecidableRel facilityEmergencyRel := fun a b =>
  inferInstanceAs (Decidable (facilityEmergencyRank a < facilityEmergencyRank b
    ∨ (facilityEmergencyRank a = facilityEmergencyRank b ∧ a.distanceKm ≤ b.distanceKm)))

/-- A store for the emergency ordering counterexample: a non-emergency
facility 1 km away and an emergency-capable one 5 km away.  The strict
emergency query finds a single row (< MIN_RESULTS), so the fallback
query's emergency-first ordering decides the response. -/
def c6EmergTable : List HospitalRow :=
  [mkRow 1 1 (1 / 2) none [] (some "Private Hospital") false,
   mkRow 2 5 (1 / 2) none [] (some "Private Hospital") true]

theorem hasPrefixL_append {α : Type} [DecidableEq α] (p q l : List α)
    (h : hasPrefixL (p ++ q) l = true) : hasPrefixL p l = true := by
  induction p generalizing l with
  | nil => rfl
  | cons a as ih =>
    cases l with
    | nil => simp [hasPrefixL] at h
    | cons b bs =>
      simp only [List.cons_append, hasPrefixL, Bool.and_eq_true] at h ⊢
      exact ⟨h.1, ih bs h.2⟩

theorem hasInfixL_append {α : Type} [DecidableEq α] (p q l : List α)
    (h : hasInfixL (p ++ q) l = true) : hasInfixL p l = true := by
  induction l with
  | nil =>
    simp only [hasInfixL, List.isEmpty_iff, List.append_eq_nil] at h ⊢
    exact h.1
  | cons b bs ih =>
    simp only [hasInfixL, Bool.or_eq_true] at h ⊢
    rcases h with h | h
    · exact Or.inl (hasPrefixL_append p q _ h)
    · exact Or.inr (ih h)

theorem strIncludes_gov_of_government (s : String)
    (h : strIncludes s "government" = true) : strIncludes s "gov" = true := by
  have e : ("government".toList) = "gov".toList ++ "ernment".toList := rfl
  unfold strIncludes at h ⊢
  rw [e] at h
  exact hasInfixL_append _ _ _ h

theorem clientFallback_emergency (text : String) (ec : EmergencyCheck)
    (h : ec.isEmergency = true) :
    (clientFallback text ec).severity = 9
    ∧ (clientFallback text ec).severityLevel = "emergency"
    ∧ (clientFallback text ec).isAutoEmergency = true
    ∧ (clientFallback text ec).detectedKeywords = ec.keywords
    ∧ (clientFallback text ec).assessmentMode = "client-fallback" := by
  unfold clientFallback
  rw [h]
  exact ⟨rfl, rfl, rfl, rfl, rfl⟩

theorem clientFallback_mode (text : String) (ec : EmergencyCheck) :
    (clientFallback text ec).assessmentMode = "client-fallback" := by
  unfold clientFallback
  split <;> rfl

/-- Claim C1: the claim as stated is false on the code.  For the input
text `chest pain` — which matches a configured instant emergency term —
the success branch of `assess` passes the external service's severity (3)
and level (`mild`) through unchanged and keeps the service's keyword list,
so the Assessment is not the claimed severity-10 emergency. -/
theorem c1_counterexample :
    (instantEmergencyCheck "chest pain").isEmergency = true
    ∧ (assess [] "chest pain" (some mildExternalResponse)).severity ≠ 10
    ∧ (assess [] "chest pain" (some mildExternalResponse)).severityLevel ≠ "emergency"
    ∧ "chest pain" ∉ (assess [] "chest pain" (some mildExternalResponse)).detectedKeywords := by
  decide

/-- Claim C1 (amended): when a configured emergency term occurs
case-insensitively in the combined symptom text, the returned Assessment
always has `auto_emergency = true`; when the external assessment call
fails, it is the client emergency fallback with severity 9, level
`emergency` and `detected_keywords` equal to the matched terms; when the
external service responds, severity and level pass through the response
unchanged for every response, and the matched terms are used as
`detected_keywords` exactly in the case that the response carries no
keywords of its own. -/
theorem assess_eq_clientFallback (ids : List String) (cond : String)
    (htext : ¬strTrim (symptomTextOf ids cond) = "") :
    assess ids cond none
      = clientFallback (symptomTextOf ids cond)
          (instantEmergencyCheck (symptomTextOf ids cond)) := by
  simp only [assess]
  rw [if_neg htext]

theorem assess_eq_mapApiResponse (ids : List String) (cond : String)
    (data : ExternalResponse)
    (htext : ¬strTrim (symptomTextOf ids cond) = "") :
    assess ids cond (some data)
      = mapApiResponse data (instantEmergencyCheck (symptomTextOf ids cond)) := by
  simp only [assess]
  rw [if_neg htext]

theorem mapApiResponse_auto (data : ExternalResponse) (ec : EmergencyCheck)
    (h : ec.isEmergency = true) :
    (mapApiResponse data ec).isAutoEmergency = true := by
  unfold mapApiResponse
  simp only [h, Bool.or_true]

theorem mapApiResponse_keywords (data : ExternalResponse) (ec : EmergencyCheck)
    (hkw : (data.detectedKeywords.getD []).length = 0) :
    (mapApiResponse data ec).detectedKeywords = ec.keywords := by
  unfold mapApiResponse
  cases hdk : data.detectedKeywords with
  | none => rfl
  | some l =>
    rw [hdk] at hkw
    simp only [Option.getD_some] at hkw
    simp [hkw]

theorem c1_amended (ids : List String) (cond : String) (api : Option ExternalResponse)
    (htext : ¬strTrim (symptomTextOf ids cond) = "")
    (hemer : (instantEmergencyCheck (symptomTextOf ids cond)).isEmergency = true) :
    (assess ids cond api).isAutoEmergency = true
    ∧ (api = none →
        (assess ids cond api).severity = 9
        ∧ (assess ids cond api).severityLevel = "emergency"
        ∧ (assess ids cond api).detectedKeywords
            = (instantEmergencyCheck (symptomTextOf ids cond)).keywords)
    ∧ (∀ data, api = some data →
        (assess ids cond api).severity = data.severity
        ∧ (assess ids cond api).severityLevel = data.severityLevel
        ∧ ((data.detectedKeywords.getD []).length = 0 →
            (assess ids cond api).detectedKeywords
              = (instantEmergencyCheck (symptomTextOf ids cond)).keywords)) := by
  cases api with
  | none =>
    rw [assess_eq_clientFallback ids cond htext]
    have h := clientFallback_emergency (symptomTextOf ids cond)
      (instantEmergencyCheck (symptomTextOf ids cond)) hemer
    exact ⟨h.2.2.1, fun _ => ⟨h.1, h.2.1, h.2.2.2.1⟩, fun data hd => nomatch hd⟩
  | some data =>
    rw [assess_eq_mapApiResponse ids cond data htext]
    refine ⟨mapApiResponse_auto data _ hemer,
      fun h => absurd h (Option.some_ne_none data), ?_⟩
    intro d hd
    cases hd
    exact ⟨rfl, rfl, fun hkw => mapApiResponse_keywords _ _ hkw⟩

/-- Closed witness for `c1_amended` at the input `chest pain` with a
failed external call. -/
theorem c1_amended_witness :
    (¬strTrim (symptomTextOf [] "chest pain") = ""
      ∧ (instantEmergencyCheck (symptomTextOf [] "chest pain")).isEmergency = true)
    ∧ (assess [] "chest pain" none).isAutoEmergency = true
    ∧ (assess [] "chest pain" none).severity = 9
    ∧ (assess [] "chest pain" none).severityLevel = "emergency"
    ∧ (assess [] "chest pain" none).detectedKeywords
        = (instantEmergencyCheck (symptomTextOf [] "chest pain")).keywords :=
  ⟨⟨by decide, by decide⟩,
    (c1_amended [] "chest pain" none (by decide) (by decide)).1,
    ((c1_amended [] "chest pain" none (by decide) (by decide)).2.1 rfl).1,
    ((c1_amended [] "chest pain" none (by decide) (by decide)).2.1 rfl).2.1,
    ((c1_amended [] "chest pain" none (by decide) (by decide)).2.1 rfl).2.2⟩

/-- Claim C2: the claim as stated is false on the code.  The
`POST /api/symptoms/classify` handler of `src/unnamed/part_004` answers
502 — a 5xx status — when the Python classifier backend is unreachable,
instead of returning a fallback Assessment. -/
theorem c2_counterexample :
    classifyProxyStatus (some "I have fever") (.unreachable "fetch failed") = 502
    ∧ 500 ≤ classifyProxyStatus (some "I have fever") (.unreachable "fetch failed")
    ∧ classifyProxyStatus (some "I have fever") (.unreachable "fetch failed") ≤ 599 := by
  decide

/-- Claim C2 (amended): the Node classify proxy forwards the Python
backend's error status and answers 502 when that backend is unreachable,
so the endpoint can return 5xx; the client-side assessment service,
however, never propagates a failure — on any failed external call with
non-empty input it returns a well-formed Assessment tagged
`mode = client-fallback`. -/
theorem c2_amended (ids : List String) (cond : String)
    (htext : ¬strTrim (symptomTextOf ids cond) = "") :
    (assess ids cond none).assessmentMode = "client-fallback" := by
  unfold assess
  simp only [if_neg htext]
  exact clientFallback_mode _ _

/-- Closed witness for `c2_amended`. -/
theorem c2_amended_witness :
    (¬strTrim (symptomTextOf [] "mild headache") = "")
    ∧ (assess [] "mild headache" none).assessmentMode = "client-fallback" :=
  ⟨by decide, c2_amended [] "mild headache" (by decide)⟩

/-- Claim C10: when the combined symptom text is empty after trimming,
`assess` returns the empty-input fallback Assessment — severity 3, level
`mild`, specialties `General Medicine`, no clarification, empty questions,
mode `fallback` — and the result does not depend on the external
assessment service at all. -/
theorem c10_empty_input (ids : List String) (cond : String)
    (api : Option ExternalResponse)
    (h : strTrim (symptomTextOf ids cond) = "") :
    assess ids cond api = assessmentFallback "Please describe your symptoms."
    ∧ (assess ids cond api).severity = 3
    ∧ (assess ids cond api).severityLevel = "mild"
    ∧ (assess ids cond api).specialties = ["General Medicine"]
    ∧ (assess ids cond api).needsClarification = false
    ∧ (assess ids cond api).clarifyingQuestions = []
    ∧ (assess ids cond api).assessmentMode = "fallback"
    ∧ assess ids cond api = assess ids cond none := by
  have e1 : assess ids cond api = assessmentFallback "Please describe your symptoms." := by
    simp only [assess]
    rw [if_pos h]
  have e2 : assess ids cond none = assessmentFallback "Please describe your symptoms." := by
    simp only [assess]
    rw [if_pos h]
  rw [e1, e2]
  exact ⟨rfl, rfl, rfl, rfl, rfl, rfl, rfl, rfl⟩

/-- Closed witness for `c10_empty_input` on whitespace-only input with a
responding external service. -/
theorem c10_witness :
    strTrim (symptomTextOf [] "   ") = ""
    ∧ assess [] "   " (some mildExternalResponse)
        = assessmentFallback "Please describe your symptoms."
    ∧ assess [] "   " (some mildExternalResponse) = assess [] "   " none :=
  ⟨by decide,
    (c10_empty_input [] "   " (some mildExternalResponse) (by decide)).1,
    (c10_empty_input [] "   " (some mildExternalResponse) (by decide)).2.2.2.2.2.2.2⟩

theorem severityConfig_cases (s : String) (cfg : SeverityConfig)
    (h : SEVERITY_CONFIG s = some cfg) :
    (s = "mild" ∧ cfg = mildConfig)
    ∨ (s = "moderate" ∧ cfg = moderateConfig)
    ∨ (s = "high" ∧ cfg = highConfig)
    ∨ (s = "emergency" ∧ cfg = emergencyConfig) := by
  unfold SEVERITY_CONFIG at h
  split at h
  · exact Or.inl ⟨by assumption, (Option.some.inj h).symm⟩
  split at h
  · exact Or.inr (Or.inl ⟨by assumption, (Option.some.inj h).symm⟩)
  split at h
  · exact Or.inr (Or.inr (Or.inl ⟨by assumption, (Option.some.inj h).symm⟩))
  split at h
  · exact Or.inr (Or.inr (Or.inr ⟨by assumption, (Option.some.inj h).symm⟩))
  · exact absurd h (by simp)

theorem severityConfig_initialRadius_le (s : String) (cfg : SeverityConfig)
    (h : SEVERITY_CONFIG s = some cfg) : cfg.initialRadius ≤ 20 := by
  rcases severityConfig_cases s cfg h with ⟨_, rfl⟩ | ⟨_, rfl⟩ | ⟨_, rfl⟩ | ⟨_, rfl⟩
    <;> decide

theorem mem_routerRadii (cfg : SeverityConfig) (r : Nat) :
    r ∈ routerRadii cfg ↔ r ∈ RADIUS_STEPS ∧ cfg.initialRadius ≤ r := by
  simp [routerRadii, List.mem_filter]

theorem routerRadii_sorted (cfg : SeverityConfig) :
    (routerRadii cfg).Pairwise (· < ·) :=
  List.Pairwise.sublist (List.filter_sublist _)
    (by decide : RADIUS_STEPS.Pairwise (· < ·))

theorem baseFilter_mem {h : HospitalRow} {rm : ℚ} {table : List HospitalRow}
    (hm : h ∈ baseFilter rm table) :
    h ∈ table ∧ h.location ≠ none ∧ h.distKm * 1000 ≤ rm ∧ 0 ≤ h.dataQualityNorm := by
  unfold baseFilter at hm
  obtain ⟨htab, hp⟩ := List.mem_filter.mp hm
  simp only [Bool.and_eq_true, decide_eq_true_eq] at hp
  refine ⟨htab, ?_, hp.1.2, hp.2⟩
  intro hnone
  rw [hnone] at hp
  exact Bool.false_ne_true hp.1.1

theorem mem_queryHospitals {h : HospitalRow} {table : List HospitalRow} {rm : ℚ}
    {cfg : SeverityConfig} {sp : Option String}
    (hm : h ∈ queryHospitals table rm cfg sp) :
    h ∈ table ∧ h.location ≠ none ∧ h.distKm * 1000 ≤ rm ∧ 0 ≤ h.dataQualityNorm := by
  simp only [queryHospitals] at hm
  have base : h ∈ baseFilter rm table := by
    split at hm
    · split at hm
      · have h1 : h ∈ sortByDistance ((baseFilter rm table).filter _) :=
          List.Sublist.mem hm (List.take_sublist _ _)
        have h2 := (List.perm_insertionSort distRel _).mem_iff.mp h1
        exact (List.mem_filter.mp h2).1
      · have h1 : h ∈ sortEmergencyFirst ((baseFilter rm table).filter _) :=
          List.Sublist.mem hm (List.take_sublist _ _)
        have h2 := (List.perm_insertionSort emergencyRel _).mem_iff.mp h1
        exact (List.mem_filter.mp h2).1
    · have h1 : h ∈ sortByDistance ((baseFilter rm table).filter _) :=
        List.Sublist.mem hm (List.take_sublist _ _)
      have h2 := (List.perm_insertionSort distRel _).mem_iff.mp h1
      exact (List.mem_filter.mp h2).1
  exact baseFilter_mem base

theorem expansionPass1_some (table : List HospitalRow) (cfg : SeverityConfig)
    (sp : String) :
    ∀ (radii : List Nat) (res : SearchResult),
      radii.Pairwise (· < ·) →
      expansionPass1 table cfg sp radii = some res →
      res.specialtyFiltered = true
      ∧ res.hospitals = queryHospitals table ((res.radiusUsed : ℚ) * 1000) cfg (some sp)
      ∧ MIN_RESULTS ≤ res.hospitals.length
      ∧ res.radiusUsed ∈ radii
      ∧ ∀ r ∈ radii, r < res.radiusUsed →
          (queryHospitals table ((r : ℚ) * 1000) cfg (some sp)).length < MIN_RESULTS := by
  intro radii
  induction radii with
  | nil => intro res _ h; exact absurd h (by simp [expansionPass1])
  | cons r rest ih =>
    intro res hpw h
    simp only [expansionPass1] at h
    split at h
    · cases h
      refine ⟨rfl, rfl, by assumption, List.mem_cons_self _ _, ?_⟩
      intro r' hr' hlt
      rcases List.mem_cons.mp hr' with rfl | hmem
      · exact absurd hlt (lt_irrefl _)
      · exact absurd hlt (not_lt_of_gt ((List.pairwise_cons.mp hpw).1 r' hmem))
    · obtain ⟨h1, h2, h3, h4, h5⟩ := ih res hpw.of_cons h
      refine ⟨h1, h2, h3, List.mem_cons_of_mem _ h4, ?_⟩
      intro r' hr' hlt
      rcases List.mem_cons.mp hr' with rfl | hmem
      · exact Nat.lt_of_not_le (by assumption)
      · exact h5 r' hmem hlt

theorem expansionPass1_none (table : List HospitalRow) (cfg : SeverityConfig)
    (sp : String) :
    ∀ radii : List Nat,
      expansionPass1 table cfg sp radii = none ↔
      ∀ r ∈ radii,
        (queryHospitals table ((r : ℚ) * 1000) cfg (some sp)).length < MIN_RESULTS := by
  intro radii
  induction radii with
  | nil => simp [expansionPass1]
  | cons r rest ih =>
    simp only [expansionPass1]
    split
    · constructor
      · intro h; exact absurd h (by simp)
      · intro h
        exact absurd (h r (List.mem_cons_self _ _)) (not_lt_of_le (by assumption))
    · rw [ih]
      constructor
      · intro h r' hr'
        rcases List.mem_cons.mp hr' with rfl | hmem
        · exact Nat.lt_of_not_le (by assumption)
        · exact h r' hmem
      · intro h r' hr'
        exact h r' (List.mem_cons_of_mem _ hr')

theorem expansionPass2_some (table : List HospitalRow) (cfg : SeverityConfig) :
    ∀ (radii : List Nat) (res : SearchResult),
      expansionPass2 table cfg radii = some res →
      res.specialtyFiltered = false
      ∧ res.hospitals = queryHospitals table ((res.radiusUsed : ℚ) * 1000) cfg none
      ∧ 0 < res.hospitals.length
      ∧ res.radiusUsed ∈ radii := by
  intro radii
  induction radii with
  | nil => intro res h; exact absurd h (by simp [expansionPass2])
  | cons r rest ih =>
    intro res h
    simp only [expansionPass2] at h
    split at h
    · cases h
      exact ⟨rfl, rfl, by assumption, List.mem_cons_self _ _⟩
    · obtain ⟨h1, h2, h3, h4⟩ := ih res h
      exact ⟨h1, h2, h3, List.mem_cons_of_mem _ h4⟩

theorem queryWithExpansion_sound (table : List HospitalRow) (cfg : SeverityConfig)
    (specialties : List String) :
    (∀ sp, routerSpecialty specialties = some sp →
      (queryWithExpansion table cfg specialties).specialtyFiltered = false →
      ∀ r ∈ routerRadii cfg,
        (queryHospitals table ((r : ℚ) * 1000) cfg (some sp)).length < MIN_RESULTS)
    ∧ (((queryWithExpansion table cfg specialties).radiusUsed ∈ routerRadii cfg
        ∧ (queryWithExpansion table cfg specialties).hospitals ≠ []
        ∧ ((queryWithExpansion table cfg specialties).specialtyFiltered = true →
            ∃ sp, routerSpecialty specialties = some sp
              ∧ (queryWithExpansion table cfg specialties).hospitals
                  = queryHospitals table
                      (((queryWithExpansion table cfg specialties).radiusUsed : ℚ) * 1000)
                      cfg (some sp)
              ∧ MIN_RESULTS ≤ (queryWithExpansion table cfg specialties).hospitals.length
              ∧ ∀ r ∈ routerRadii cfg,
                  r < (queryWithExpansion table cfg specialties).radiusUsed →
                  (queryHospitals table ((r : ℚ) * 1000) cfg (some sp)).length < MIN_RESULTS)
        ∧ ((queryWithExpansion table cfg specialties).specialtyFiltered = false →
            (queryWithExpansion table cfg specialties).hospitals
              = queryHospitals table
                  (((queryWithExpansion table cfg specialties).radiusUsed : ℚ) * 1000)
                  cfg none))
      ∨ queryWithExpansion table cfg specialties = ⟨[], 20, false⟩) := by
  cases hsp : routerSpecialty specialties with
  | some sp =>
    cases hp1 : expansionPass1 table cfg sp (routerRadii cfg) with
    | some res1 =>
      have heq : queryWithExpansion table cfg specialties = res1 := by
        simp only [queryWithExpansion, hsp, hp1]
      obtain ⟨f1, f2, f3, f4, f5⟩ :=
        expansionPass1_some table cfg sp (routerRadii cfg) res1
          (routerRadii_sorted cfg) hp1
      rw [heq]
      constructor
      · intro sp' hsp' hfalse
        rw [f1] at hfalse
        exact absurd hfalse (by simp)
      · refine Or.inl ⟨f4, ?_, ?_, ?_⟩
        · intro hnil
          rw [hnil] at f3
          exact absurd f3 (by decide)
        · intro _
          exact ⟨sp, rfl, f2, f3, f5⟩
        · intro hfalse
          rw [f1] at hfalse
          exact absurd hfalse (by simp)
    | none =>
      have hall := (expansionPass1_none table cfg sp (routerRadii cfg)).mp hp1
      have heq : queryWithExpansion table cfg specialties
          = (expansionPass2 table cfg (routerRadii cfg)).getD ⟨[], 20, false⟩ := by
        simp only [queryWithExpansion, hsp, hp1]
      constructor
      · intro sp' hsp' _
        cases hsp'
        exact hall
      · cases hp2 : expansionPass2 table cfg (routerRadii cfg) with
        | some res2 =>
          rw [heq, hp2, Option.getD_some]
          obtain ⟨g1, g2, g3, g4⟩ :=
            expansionPass2_some table cfg (routerRadii cfg) res2 hp2
          refine Or.inl ⟨g4, ?_, ?_, fun _ => g2⟩
          · intro hnil
            rw [hnil] at g3
            exact absurd g3 (by decide)
          · intro htrue
            rw [g1] at htrue
            exact absurd htrue (by simp)
        | none =>
          rw [heq, hp2]
          exact Or.inr rfl
  | none =>
    constructor
    · intro sp' hsp' _
      exact absurd hsp' (by simp)
    · have heq : queryWithExpansion table cfg specialties
          = (expansionPass2 table cfg (routerRadii cfg)).getD ⟨[], 20, false⟩ := by
        simp only [queryWithExpansion, hsp]
      cases hp2 : expansionPass2 table cfg (routerRadii cfg) with
      | some res2 =>
        rw [heq, hp2, Option.getD_some]
        obtain ⟨g1, g2, g3, g4⟩ :=
          expansionPass2_some table cfg (routerRadii cfg) res2 hp2
        refine Or.inl ⟨g4, ?_, ?_, fun _ => g2⟩
        · intro hnil
          rw [hnil] at g3
          exact absurd g3 (by decide)
        · intro htrue
          rw [g1] at htrue
          exact absurd htrue (by simp)
      | none =>
        rw [heq, hp2]
        exact Or.inr rfl

/-- Claim C3: for every severity-based search over the
`src/unnamed/part_004` router, the radius used is one of `RADIUS_STEPS =
[5, 8, 12, 20]`, is at least the level's configured initial radius, and
an empty facility list is only ever returned together with the maximal
radius 20. -/
theorem c3_radius_invariant (table : List HospitalRow) (sl : String)
    (cfg : SeverityConfig) (specialties : List String)
    (hcfg : SEVERITY_CONFIG sl = some cfg) :
    (queryWithExpansion table cfg specialties).radiusUsed ∈ RADIUS_STEPS
    ∧ cfg.initialRadius ≤ (queryWithExpansion table cfg specialties).radiusUsed
    ∧ ((queryWithExpansion table cfg specialties).hospitals = [] →
        (queryWithExpansion table cfg specialties).radiusUsed = 20) := by
  have hinit := severityConfig_initialRadius_le sl cfg hcfg
  rcases (queryWithExpansion_sound table cfg specialties).2 with ⟨hmem, hne, _, _⟩ | heq
  · obtain ⟨h1, h2⟩ := (mem_routerRadii cfg _).mp hmem
    exact ⟨h1, h2, fun hnil => absurd hnil hne⟩
  · rw [heq]
    exact ⟨by decide, hinit, fun _ => rfl⟩

/-- Closed witness for `c3_radius_invariant` at a one-row store and the
mild severity configuration. -/
theorem c3_witness :
    SEVERITY_CONFIG "mild" = some mildConfig
    ∧ (queryWithExpansion [rowLowQuality] mildConfig []).radiusUsed ∈ RADIUS_STEPS
    ∧ mildConfig.initialRadius ≤ (queryWithExpansion [rowLowQuality] mildConfig []).radiusUsed
    ∧ ((queryWithExpansion [rowLowQuality] mildConfig []).hospitals = [] →
        (queryWithExpansion [rowLowQuality] mildConfig []).radiusUsed = 20) :=
  ⟨rfl, c3_radius_invariant [rowLowQuality] "mild" mildConfig [] rfl⟩

/-- Claim C4: the claim as stated is false on the code.  The
severity-based search of `src/unnamed/part_004` gates on
`data_quality_norm >= 0`, not on the claimed 0.3 threshold: a facility
with quality 0.1 is returned. -/
theorem c4_counterexample :
    (queryWithExpansion [rowLowQuality] mildConfig []).hospitals = [rowLowQuality]
    ∧ rowLowQuality.dataQualityNorm < 3 / 10 := by
  constructor
  · decide
  · decide

/-- Claim C4 (amended): every facility returned by the severity-based
search has a non-null location and `data_quality_norm ≥ 0` — the gate the
code actually applies (0, not the claimed 0.3) — and comes from the
store. -/
theorem c4_quality_gate (table : List HospitalRow) (cfg : SeverityConfig)
    (specialties : List String) (h : HospitalRow)
    (hmem : h ∈ (queryWithExpansion table cfg specialties).hospitals) :
    h.location ≠ none ∧ 0 ≤ h.dataQualityNorm ∧ h ∈ table := by
  rcases (queryWithExpansion_sound table cfg specialties).2 with ⟨_, _, htrue, hfalse⟩ | heq
  · cases hb : (queryWithExpansion table cfg specialties).specialtyFiltered
    · rw [hfalse hb] at hmem
      obtain ⟨ht, hl, _, hq⟩ := mem_queryHospitals hmem
      exact ⟨hl, hq, ht⟩
    · obtain ⟨sp, _, heq2, _, _⟩ := htrue hb
      rw [heq2] at hmem
      obtain ⟨ht, hl, _, hq⟩ := mem_queryHospitals hmem
      exact ⟨hl, hq, ht⟩
  · rw [heq] at hmem
    exact absurd hmem (by simp)

/-- Closed witness for `c4_quality_gate`. -/
theorem c4_witness :
    rowLowQuality ∈ (queryWithExpansion [rowLowQuality] mildConfig []).hospitals
    ∧ rowLowQuality.location ≠ none
    ∧ 0 ≤ rowLowQuality.dataQualityNorm
    ∧ rowLowQuality ∈ [rowLowQuality] :=
  ⟨by decide, c4_quality_gate [rowLowQuality] mildConfig [] rowLowQuality (by decide)⟩

/-- Claim C5: the claim as stated is false on the code.  With specialty
`Cardiology` at mild severity, the strict pass at radius 5 returns fewer
than `MIN_RESULTS` rows and three non-specialty rows exist at radius 5,
yet `queryWithExpansion` advances to radius 8 still specialty-filtered —
it never retries without the specialty at the same radius, unlike the
per-radius relaxation the claim describes (`specRouterPerRadius`). -/
theorem c5_counterexample :
    (queryWithExpansion c5Table mildConfig ["Cardiology"]).radiusUsed = 8
    ∧ (queryWithExpansion c5Table mildConfig ["Cardiology"]).specialtyFiltered = true
    ∧ (queryHospitals c5Table (((5 : Nat) : ℚ) * 1000) mildConfig (some "Cardiology")).length < MIN_RESULTS
    ∧ MIN_RESULTS ≤ (queryHospitals c5Table (((5 : Nat) : ℚ) * 1000) mildConfig none).length
    ∧ (specRouterPerRadius c5Table mildConfig "Cardiology" (routerRadii mildConfig)).radiusUsed = 5
    ∧ (specRouterPerRadius c5Table mildConfig "Cardiology" (routerRadii mildConfig)).specialtyFiltered = false := by
  refine ⟨?_, ?_, ?_, ?_, ?_, ?_⟩ <;> decide

/-- Claim C5 (amended): when a non-empty specialty is supplied, the
router walks all radii with the specialty filter first —
`specialtyFiltered` is true iff some radius yields at least `MIN_RESULTS`
specialty-matching rows; in that case the result is the specialty query
at the first such radius; only when every radius fails the threshold does
the relaxed (no-specialty) walk run, tagged `specialtyFiltered = false`. -/
theorem c5_two_phase (table : List HospitalRow) (cfg : SeverityConfig) (sp : String)
    (hsp : sp ≠ "") :
    ((queryWithExpansion table cfg [sp]).specialtyFiltered = true ↔
      ∃ r ∈ routerRadii cfg,
        MIN_RESULTS ≤ (queryHospitals table ((r : ℚ) * 1000) cfg (some sp)).length)
    ∧ ((queryWithExpansion table cfg [sp]).specialtyFiltered = true →
        (queryWithExpansion table cfg [sp]).hospitals
          = queryHospitals table
              (((queryWithExpansion table cfg [sp]).radiusUsed : ℚ) * 1000) cfg (some sp)
        ∧ ∀ r ∈ routerRadii cfg,
            r < (queryWithExpansion table cfg [sp]).radiusUsed →
            (queryHospitals table ((r : ℚ) * 1000) cfg (some sp)).length < MIN_RESULTS)
    ∧ ((queryWithExpansion table cfg [sp]).specialtyFiltered = false →
        ∀ r ∈ routerRadii cfg,
          (queryHospitals table ((r : ℚ) * 1000) cfg (some sp)).length < MIN_RESULTS) := by
  have hropt : routerSpecialty [sp] = some sp := by
    simp [routerSpecialty, hsp]
  obtain ⟨hexh, hcases⟩ := queryWithExpansion_sound table cfg [sp]
  have hfalse_case : (queryWithExpansion table cfg [sp]).specialtyFiltered = false →
      ∀ r ∈ routerRadii cfg,
        (queryHospitals table ((r : ℚ) * 1000) cfg (some sp)).length < MIN_RESULTS :=
    fun hb => hexh sp hropt hb
  refine ⟨⟨?_, ?_⟩, ?_, hfalse_case⟩
  · intro htrue
    rcases hcases with ⟨hmem, _, hT, _⟩ | heq
    · obtain ⟨sp', hsp', heq2, hlen, _⟩ := hT htrue
      rw [hropt] at hsp'
      cases hsp'
      refine ⟨(queryWithExpansion table cfg [sp]).radiusUsed, hmem, ?_⟩
      rw [← heq2]
      exact hlen
    · rw [heq] at htrue
      exact absurd htrue (by simp)
  · rintro ⟨r, hr, hlen⟩
    cases hval : (queryWithExpansion table cfg [sp]).specialtyFiltered
    · exact absurd hlen (not_le_of_lt (hfalse_case hval r hr))
    · rfl
  · intro htrue
    rcases hcases with ⟨hmem, _, hT, _⟩ | heq
    · obtain ⟨sp', hsp', heq2, hlen, hmin⟩ := hT htrue
      rw [hropt] at hsp'
      cases hsp'
      exact ⟨heq2, hmin⟩
    · rw [heq] at htrue
      exact absurd htrue (by simp)

/-- Closed witness for `c5_two_phase`. -/
theorem c5_witness :
    ("Cardiology" ≠ "")
    ∧ ((queryWithExpansion c5Table mildConfig ["Cardiology"]).specialtyFiltered = true ↔
        ∃ r ∈ routerRadii mildConfig,
          MIN_RESULTS ≤ (queryHospitals c5Table ((r : ℚ) * 1000) mildConfig
            (some "Cardiology")).length) :=
  ⟨by decide, (c5_two_phase c5Table mildConfig "Cardiology" (by decide)).1⟩

theorem careTypeOk_none (cfg : SeverityConfig) (h : HospitalRow)
    (hh : h.hospitalCareType = none) : careTypeOk cfg h = true := by
  unfold careTypeOk
  rw [hh]

theorem careTypeOk_some (cfg : SeverityConfig) (h : HospitalRow) (ct : String)
    (hh : h.hospitalCareType = some ct) (hmem : ct ∈ cfg.careTypes) :
    careTypeOk cfg h = true := by
  unfold careTypeOk
  rw [hh]
  exact decide_eq_true hmem

theorem careTypeOk_false (cfg : SeverityConfig) (h : HospitalRow)
    (hf : careTypeOk cfg h = false) :
    ∃ ct, h.hospitalCareType = some ct ∧ ct ∉ cfg.careTypes := by
  unfold careTypeOk at hf
  cases hct : h.hospitalCareType with
  | none => rw [hct] at hf; exact absurd hf (by simp)
  | some ct =>
    rw [hct] at hf
    exact ⟨ct, rfl, of_decide_eq_false hf⟩

/-- Claim C8: the claim as stated is false on the code.  At high
severity, a facility whose `hospital_care_type` is the non-null value
`Clinic` is excluded by `queryHospitals` even though it passes every
other filter — the identical row with NULL care type is returned — so the
search does exclude on the basis of care type. -/
theorem c8_counterexample :
    (queryWithExpansion [rowClinic] highConfig []).hospitals = []
    ∧ (queryWithExpansion [rowClinicNull] highConfig []).hospitals = [rowClinicNull]
    ∧ rowClinic.distKm * 1000 ≤ ((12 : Nat) : ℚ) * 1000
    ∧ rowClinic.location ≠ none
    ∧ 0 ≤ rowClinic.dataQualityNorm
    ∧ rowClinicNull = { rowClinic with hospitalCareType := none } := by
  refine ⟨?_, ?_, ?_, ?_, ?_, ?_⟩ <;> decide

/-- Claim C8 (amended): for mild, moderate and high severity the search
filters by a per-level care-type allowlist that always admits NULL care
types and always contains `Hospital`; a facility is excluded on care type
exactly when its care type is non-null and outside the level's list
(emergency applies no care-type filter at all, only the
emergency-availability preference). -/
theorem c8_care_type (sl : String) (cfg : SeverityConfig)
    (hcfg : SEVERITY_CONFIG sl = some cfg) (hsl : sl ≠ "emergency") :
    cfg.emergencyOnly = false
    ∧ "Hospital" ∈ cfg.careTypes
    ∧ (∀ h : HospitalRow, h.hospitalCareType = none → careTypeOk cfg h = true)
    ∧ (∀ h : HospitalRow, h.hospitalCareType = some "Hospital" → careTypeOk cfg h = true)
    ∧ (∀ h : HospitalRow, careTypeOk cfg h = false →
        ∃ ct, h.hospitalCareType = some ct ∧ ct ∉ cfg.careTypes) := by
  rcases severityConfig_cases sl cfg hcfg with ⟨hs, rfl⟩ | ⟨hs, rfl⟩ | ⟨hs, rfl⟩ | ⟨hs, rfl⟩
  · exact ⟨rfl, by decide, fun h hh => careTypeOk_none _ h hh,
      fun h hh => careTypeOk_some _ h _ hh (by decide), fun h => careTypeOk_false _ h⟩
  · exact ⟨rfl, by decide, fun h hh => careTypeOk_none _ h hh,
      fun h hh => careTypeOk_some _ h _ hh (by decide), fun h => careTypeOk_false _ h⟩
  · exact ⟨rfl, by decide, fun h hh => careTypeOk_none _ h hh,
      fun h hh => careTypeOk_some _ h _ hh (by decide), fun h => careTypeOk_false _ h⟩
  · exact absurd hs hsl

/-- Closed witness for `c8_care_type` at the high severity level. -/
theorem c8_witness :
    (SEVERITY_CONFIG "high" = some highConfig ∧ "high" ≠ "emergency")
    ∧ highConfig.emergencyOnly = false
    ∧ "Hospital" ∈ highConfig.careTypes
    ∧ careTypeOk highConfig rowClinicNull = true :=
  ⟨⟨rfl, by decide⟩,
    (c8_care_type "high" highConfig rfl (by decide)).1,
    (c8_care_type "high" highConfig rfl (by decide)).2.1,
    (c8_care_type "high" highConfig rfl (by decide)).2.2.1 rowClinicNull rfl⟩

/-- Claim C9: the claim as stated is false on the code of
`src/unnamed/part_004`: its `queryWithExpansion` has no per-radius catch,
so a store failure at radius 5 aborts the whole search with an error —
the route answers 500 — even though the query at the next radius (8)
succeeds with three facilities. -/
theorem c9_counterexample :
    queryWithExpansionE failingStore mildConfig []
      = Except.error "connection terminated"
    ∧ 5 ∈ routerRadii mildConfig
    ∧ 8 ∈ routerRadii mildConfig
    ∧ ∃ rows, failingStore 8 none = Except.ok rows ∧ 0 < rows.length := by
  refine ⟨rfl, by decide, by decide, ⟨_, rfl, by decide⟩⟩

theorem expansionLoopJS_catch (q : Nat → Bool → Except String (List HospitalRow)) :
    ∀ radii : List Nat,
      expansionLoopJS (fun r s => Except.ok (runQueryJS q r s)) radii
        = expansionLoopJS q radii := by
  intro radii
  induction radii with
  | nil => rfl
  | cons r rest ih =>
    simp only [expansionLoopJS]
    rw [ih]
    rfl

/-- Claim C9 (amended): in the `src/backend/server.js` router, `runQuery`
catches store failures per radius (logging them and returning an empty
row set), so the whole search behaves exactly as if every failing radius
had returned zero rows — the loop advances past failures and the request
never fails with a store error; the `src/unnamed/part_004` variant, by
contrast, aborts on the first failing radius (`c9_counterexample`). -/
theorem c9_failure_is_empty (q : Nat → Bool → Except String (List HospitalRow))
    (cfg : SeverityConfig) :
    queryWithExpansionJS q cfg
      = queryWithExpansionJS (fun r s => Except.ok (runQueryJS q r s)) cfg := by
  unfold queryWithExpansionJS
  exact (expansionLoopJS_catch q _).symm

theorem prioGovTag_transform (r : HospitalRow) :
    prioGovTag (transformFacility r) = claimGovTag (transformFacility r) := by
  have hcat : (transformFacility r).category = r.hospitalCategory.getD "" := rfl
  have hgov : (transformFacility r).isGovernment
      = (strIncludes (strToLower (r.hospitalCategory.getD "")) "gov"
          || strIncludes (strToLower (r.hospitalCategory.getD "")) "public") := rfl
  unfold prioGovTag claimGovTag
  rw [hcat, hgov]
  cases hg : strIncludes (strToLower (r.hospitalCategory.getD "")) "government"
  · simp
  · have hgv := strIncludes_gov_of_government _ hg
    simp [hgv]

theorem prioRel_total : ∀ a b : Facility, prioRel a b ∨ prioRel b a := by
  intro a b
  unfold prioRel
  cases hga : prioGovTag a <;> cases hgb : prioGovTag b
  · rcases le_total a.distanceKm b.distanceKm with h | h
    · exact Or.inl (Or.inr ⟨rfl, h⟩)
    · exact Or.inr (Or.inr ⟨rfl, h⟩)
  · exact Or.inr (Or.inl ⟨rfl, rfl⟩)
  · exact Or.inl (Or.inl ⟨rfl, rfl⟩)
  · rcases le_total a.distanceKm b.distanceKm with h | h
    · exact Or.inl (Or.inr ⟨rfl, h⟩)
    · exact Or.inr (Or.inr ⟨rfl, h⟩)

theorem prioRel_trans : ∀ a b c : Facility, prioRel a b → prioRel b c → prioRel a c := by
  intro a b c hab hbc
  unfold prioRel at hab hbc ⊢
  rcases hab with ⟨ha, hb⟩ | ⟨hab1, hab2⟩
  · rcases hbc with ⟨hb', _⟩ | ⟨hbc1, _⟩
    · rw [hb] at hb'
      exact absurd hb' (by simp)
    · exact Or.inl ⟨ha, hbc1 ▸ hb⟩
  · rcases hbc with ⟨hb', hc⟩ | ⟨hbc1, hbc2⟩
    · exact Or.inl ⟨hab1.trans hb', hc⟩
    · exact Or.inr ⟨hab1.trans hbc1, le_trans hab2 hbc2⟩

theorem getFiltered_eq_sort (s1 s2 s3 : Bool) (hospitals : List Facility)
    (sl : String) (hsl : sl = "mild" ∨ sl = "moderate") :
    getFilteredAndPrioritizedHospitals s1 s2 s3 hospitals sl
      = (hospitals.filter (checkboxKeep s1 s2 s3)).insertionSort prioRel := by
  unfold getFilteredAndPrioritizedHospitals
  rcases hsl with rfl | rfl <;> simp

theorem getFiltered_eq_filter (s1 s2 s3 : Bool) (hospitals : List Facility)
    (sl : String) (h1 : ¬sl = "mild") (h2 : ¬sl = "moderate") :
    getFilteredAndPrioritizedHospitals s1 s2 s3 hospitals sl
      = hospitals.filter (checkboxKeep s1 s2 s3) := by
  unfold getFilteredAndPrioritizedHospitals
  rw [if_neg]
  simp [h1, h2]

theorem mem_transformFacilities {x : Facility} {rows : List HospitalRow}
    (hx : x ∈ transformFacilities rows) : ∃ r : HospitalRow, transformFacility r = x := by
  unfold transformFacilities at hx
  obtain ⟨r, _, hr⟩ := List.mem_map.mp hx
  exact ⟨r, hr⟩

theorem transformFacilities_pairwise_dist {rows : List HospitalRow}
    (hsorted : rows.Pairwise (fun a b => a.distKm ≤ b.distKm)) :
    (transformFacilities rows).Pairwise (fun a b => a.distanceKm ≤ b.distanceKm) := by
  unfold transformFacilities
  exact List.pairwise_map.mpr (hsorted.filter _)

theorem emergencyRel_total : ∀ a b : HospitalRow, emergencyRel a b ∨ emergencyRel b a := by
  intro a b
  unfold emergencyRel
  rcases Nat.lt_trichotomy (emergencyRank a) (emergencyRank b) with h | h | h
  · exact Or.inl (Or.inl h)
  · rcases le_total a.distKm b.distKm with hd | hd
    · exact Or.inl (Or.inr ⟨h, hd⟩)
    · exact Or.inr (Or.inr ⟨h.symm, hd⟩)
  · exact Or.inr (Or.inl h)

theorem emergencyRel_trans :
    ∀ a b c : HospitalRow, emergencyRel a b → emergencyRel b c → emergencyRel a c := by
  intro a b c hab hbc
  unfold emergencyRel at hab hbc ⊢
  rcases hab with h1 | ⟨h1, hd1⟩ <;> rcases hbc with h2 | ⟨h2, hd2⟩
  · exact Or.inl (h1.trans h2)
  · exact Or.inl (by omega)
  · exact Or.inl (by omega)
  · exact Or.inr ⟨h1.trans h2, le_trans hd1 hd2⟩

theorem queryHospitals_pairwise_dist (table : List HospitalRow) (rm : ℚ)
    (cfg : SeverityConfig) (sp : Option String) (hcfg : cfg.emergencyOnly = false) :
    (queryHospitals table rm cfg sp).Pairwise distRel := by
  haveI : IsTotal HospitalRow distRel := ⟨fun a b => le_total _ _⟩
  haveI : IsTrans HospitalRow distRel := ⟨fun _ _ _ hab hbc => le_trans hab hbc⟩
  simp only [queryHospitals, sortByDistance, hcfg]
  exact List.Pairwise.sublist (List.take_sublist _ _)
    (List.sorted_insertionSort distRel _)

theorem queryHospitals_pairwise_emerg (table : List HospitalRow) (rm : ℚ)
    (cfg : SeverityConfig) (sp : Option String) (hcfg : cfg.emergencyOnly = true) :
    (queryHospitals table rm cfg sp).Pairwise emergencyRel := by
  haveI : IsTotal HospitalRow distRel := ⟨fun a b => le_total _ _⟩
  haveI : IsTrans HospitalRow distRel := ⟨fun _ _ _ hab hbc => le_trans hab hbc⟩
  haveI : IsTotal HospitalRow emergencyRel := ⟨emergencyRel_total⟩
  haveI : IsTrans HospitalRow emergencyRel := ⟨emergencyRel_trans⟩
  simp only [queryHospitals, sortByDistance, sortEmergencyFirst, hcfg]
  rw [if_pos trivial]
  split
  · have hPW : (((baseFilter rm table).filter
        (fun h => h.emergencyAvailable && specialtyOk sp h)).insertionSort distRel
          |>.take 20).Pairwise distRel :=
      List.Pairwise.sublist (List.take_sublist _ _)
        (List.sorted_insertionSort distRel _)
    refine List.Pairwise.imp_of_mem ?_ hPW
    intro a b ha hb hr
    have hmem : ∀ {x : HospitalRow}, x ∈ (((baseFilter rm table).filter
        (fun h => h.emergencyAvailable && specialtyOk sp h)).insertionSort distRel
          |>.take 20) → x.emergencyAvailable = true := by
      intro x hx
      have h1 := List.Sublist.mem hx (List.take_sublist _ _)
      have h2 := (List.perm_insertionSort distRel _).mem_iff.mp h1
      have h3 := (List.mem_filter.mp h2).2
      rw [Bool.and_eq_true] at h3
      exact h3.1
    refine Or.inr ⟨?_, hr⟩
    unfold emergencyRank
    rw [hmem ha, hmem hb]
  · exact List.Pairwise.sublist (List.take_sublist _ _)
      (List.sorted_insertionSort emergencyRel _)

theorem queryWithExpansion_hospitals_pairwise (table : List HospitalRow)
    (cfg : SeverityConfig) (specialties : List String)
    {R : HospitalRow → HospitalRow → Prop}
    (hq : ∀ (rm : ℚ) (sp : Option String), (queryHospitals table rm cfg sp).Pairwise R) :
    (queryWithExpansion table cfg specialties).hospitals.Pairwise R := by
  rcases (queryWithExpansion_sound table cfg specialties).2 with ⟨_, _, htrue, hfalse⟩ | heq
  · cases hb : (queryWithExpansion table cfg specialties).specialtyFiltered
    · rw [hfalse hb]
      exact hq _ _
    · obtain ⟨sp, _, heq2, _, _⟩ := htrue hb
      rw [heq2]
      exact hq _ _
  · rw [heq]
    exact List.Pairwise.nil

theorem transformFacilities_pairwise_emerg {rows : List HospitalRow}
    (h : rows.Pairwise emergencyRel) :
    (transformFacilities rows).Pairwise facilityEmergencyRel := by
  unfold transformFacilities
  exact List.pairwise_map.mpr (h.filter _)

/-- Claim C6: the claim as stated is false on the code.  At emergency
severity, when the strict emergency query yields fewer than `MIN_RESULTS`
rows, the `src/unnamed/part_004` fallback orders rows emergency-capable
first (`ORDER BY CASE WHEN emergency_available …, distance`) and
`src/unnamed/part_010` applies no reordering for `emergency` — here an
emergency facility 5 km away precedes a non-emergency one 1 km away, so
the displayed order is not pure distance order. -/
theorem c6_counterexample :
    (getFilteredAndPrioritizedHospitals true true true
        (transformFacilities (queryWithExpansion c6EmergTable emergencyConfig []).hospitals)
        "emergency").map Facility.distanceKm = [5, 1]
    ∧ ¬(getFilteredAndPrioritizedHospitals true true true
        (transformFacilities (queryWithExpansion c6EmergTable emergencyConfig []).hospitals)
        "emergency").Pairwise (fun a b => a.distanceKm ≤ b.distanceKm)
    ∧ SEVERITY_CONFIG "emergency" = some emergencyConfig := by
  refine ⟨?_, ?_, ?_⟩ <;> decide

/-- Claim C6 (amended): through the composed pipeline (part_004 search,
part_010 transform and filter/prioritise), for mild and moderate severity
every facility tagged government — a case-insensitive substring match on
`gov` or `public` against its category — precedes every non-government
facility, with ascending-distance order inside each group.  For high
severity no reordering is applied and the order is pure ascending
distance.  For emergency severity no reordering is applied either, but
the order is emergency-capable facilities first with ascending distance
inside each capability group, not pure distance order. -/
theorem c6_government_priority (table : List HospitalRow) (specialties : List String)
    (s1 s2 s3 : Bool) (sl : String) (cfg : SeverityConfig)
    (hcfg : SEVERITY_CONFIG sl = some cfg) :
    ((sl = "mild" ∨ sl = "moderate") →
      (getFilteredAndPrioritizedHospitals s1 s2 s3
          (transformFacilities (queryWithExpansion table cfg specialties).hospitals)
          sl).Pairwise
          (fun a b => claimGovTag b = true → claimGovTag a = true)
      ∧ ((getFilteredAndPrioritizedHospitals s1 s2 s3
          (transformFacilities (queryWithExpansion table cfg specialties).hospitals)
          sl).filter claimGovTag).Pairwise (fun a b => a.distanceKm ≤ b.distanceKm)
      ∧ ((getFilteredAndPrioritizedHospitals s1 s2 s3
          (transformFacilities (queryWithExpansion table cfg specialties).hospitals)
          sl).filter (fun h => !claimGovTag h)).Pairwise
            (fun a b => a.distanceKm ≤ b.distanceKm))
    ∧ (sl = "high" →
      (getFilteredAndPrioritizedHospitals s1 s2 s3
          (transformFacilities (queryWithExpansion table cfg specialties).hospitals)
          sl).Pairwise (fun a b => a.distanceKm ≤ b.distanceKm))
    ∧ (sl = "emergency" →
      (getFilteredAndPrioritizedHospitals s1 s2 s3
          (transformFacilities (queryWithExpansion table cfg specialties).hospitals)
          sl).Pairwise facilityEmergencyRel) := by
  have htag : ∀ x ∈ transformFacilities (queryWithExpansion table cfg specialties).hospitals,
      prioGovTag x = claimGovTag x := by
    intro x hx
    obtain ⟨r, rfl⟩ := mem_transformFacilities hx
    exact prioGovTag_transform r
  refine ⟨?_, ?_, ?_⟩
  · intro hsl
    rw [getFiltered_eq_sort s1 s2 s3 _ sl hsl]
    haveI : IsTotal Facility prioRel := ⟨prioRel_total⟩
    haveI : IsTrans Facility prioRel := ⟨prioRel_trans⟩
    have hPW : ((transformFacilities
        (queryWithExpansion table cfg specialties).hospitals).filter
        (checkboxKeep s1 s2 s3)).insertionSort prioRel |>.Pairwise prioRel :=
      List.sorted_insertionSort prioRel _
    have hmemtf : ∀ x, x ∈ ((transformFacilities
        (queryWithExpansion table cfg specialties).hospitals).filter
        (checkboxKeep s1 s2 s3)).insertionSort prioRel →
        x ∈ transformFacilities (queryWithExpansion table cfg specialties).hospitals := by
      intro x hx
      exact (List.mem_filter.mp
        ((List.perm_insertionSort prioRel _).mem_iff.mp hx)).1
    refine ⟨?_, ?_, ?_⟩
    · refine List.Pairwise.imp_of_mem ?_ hPW
      intro a b ha hb hr hcb
      have hta := htag a (hmemtf a ha)
      have htb := htag b (hmemtf b hb)
      rcases hr with ⟨h1, _⟩ | ⟨h1, _⟩
      · rw [← hta]
        exact h1
      · rw [← hta, h1, htb]
        exact hcb
    · have hpf : (((transformFacilities
          (queryWithExpansion table cfg specialties).hospitals).filter
          (checkboxKeep s1 s2 s3)).insertionSort prioRel |>.filter claimGovTag).Pairwise
          prioRel := hPW.filter _
      refine List.Pairwise.imp_of_mem ?_ hpf
      intro a b ha hb hr
      obtain ⟨ha', hga⟩ := List.mem_filter.mp ha
      obtain ⟨hb', hgb⟩ := List.mem_filter.mp hb
      have htb := htag b (hmemtf b hb')
      rcases hr with ⟨_, h2⟩ | ⟨_, h2⟩
      · rw [htb] at h2
        rw [hgb] at h2
        exact absurd h2 (by simp)
      · exact h2
    · have hpf : (((transformFacilities
          (queryWithExpansion table cfg specialties).hospitals).filter
          (checkboxKeep s1 s2 s3)).insertionSort prioRel |>.filter
            (fun h => !claimGovTag h)).Pairwise prioRel := hPW.filter _
      refine List.Pairwise.imp_of_mem ?_ hpf
      intro a b ha hb hr
      obtain ⟨ha', hga⟩ := List.mem_filter.mp ha
      obtain ⟨hb', hgb⟩ := List.mem_filter.mp hb
      have hta := htag a (hmemtf a ha')
      simp only [Bool.not_eq_true'] at hga hgb
      rcases hr with ⟨h1, _⟩ | ⟨_, h2⟩
      · rw [hta] at h1
        rw [hga] at h1
        exact absurd h1 (by simp)
      · exact h2
  · intro hsl
    subst hsl
    have hc : highConfig = cfg := Option.some.inj hcfg
    subst hc
    rw [getFiltered_eq_filter s1 s2 s3 _ "high" (by decide) (by decide)]
    refine List.Pairwise.filter _ ?_
    exact transformFacilities_pairwise_dist
      (queryWithExpansion_hospitals_pairwise table highConfig specialties
        (fun rm sp => queryHospitals_pairwise_dist table rm highConfig sp rfl))
  · intro hsl
    subst hsl
    have hc : emergencyConfig = cfg := Option.some.inj hcfg
    subst hc
    rw [getFiltered_eq_filter s1 s2 s3 _ "emergency" (by decide) (by decide)]
    refine List.Pairwise.filter _ ?_
    exact transformFacilities_pairwise_emerg
      (queryWithExpansion_hospitals_pairwise table emergencyConfig specialties
        (fun rm sp => queryHospitals_pairwise_emerg table rm emergencyConfig sp rfl))

/-- Closed witness for `c6_government_priority`: the emergency ordering
on the counterexample store and the government precedence on a mild
search over a store with a government facility. -/
theorem c6_witness :
    (SEVERITY_CONFIG "emergency" = some emergencyConfig
      ∧ SEVERITY_CONFIG "mild" = some mildConfig)
    ∧ (getFilteredAndPrioritizedHospitals true true true
        (transformFacilities (queryWithExpansion c6EmergTable emergencyConfig []).hospitals)
        "emergency").Pairwise facilityEmergencyRel
    ∧ (getFilteredAndPrioritizedHospitals true true true
        (transformFacilities (queryWithExpansion c6Rows mildConfig []).hospitals)
        "mild").Pairwise (fun a b => claimGovTag b = true → claimGovTag a = true) :=
  ⟨⟨rfl, rfl⟩,
    (c6_government_priority c6EmergTable [] true true true "emergency"
      emergencyConfig rfl).2.2 rfl,
    ((c6_government_priority c6Rows [] true true true "mild"
      mildConfig rfl).1 (Or.inl rfl)).1⟩

theorem getD_mem_of_lt {l : List ℚ} {i : Nat} (h : i < l.length) : l.getD i 0 ∈ l := by
  rw [List.getD_eq_getElem l 0 h]
  exact List.getElem_mem h

theorem medianQ_bounds (l : List ℚ) (lo hi : ℚ) (hne : l ≠ [])
    (hb : ∀ x ∈ l, lo ≤ x ∧ x ≤ hi) : lo ≤ medianQ l ∧ medianQ l ≤ hi := by
  simp only [medianQ]
  have hperm := List.perm_insertionSort (fun a b : ℚ => a ≤ b) l
  have hlen : (l.insertionSort (fun a b => a ≤ b)).length = l.length := hperm.length_eq
  have hlpos : 0 < (l.insertionSort (fun a b => a ≤ b)).length := by
    rw [hlen]
    exact List.length_pos.mpr hne
  have hbs : ∀ x ∈ l.insertionSort (fun a b => a ≤ b), lo ≤ x ∧ x ≤ hi := by
    intro x hx
    exact hb x (hperm.mem_iff.mp hx)
  split
  · have hidx : (l.insertionSort (fun a b => a ≤ b)).length / 2
        < (l.insertionSort (fun a b => a ≤ b)).length :=
      Nat.div_lt_self hlpos (by decide)
    exact hbs _ (getD_mem_of_lt hidx)
  · have hidx2 : (l.insertionSort (fun a b => a ≤ b)).length / 2
        < (l.insertionSort (fun a b => a ≤ b)).length :=
      Nat.div_lt_self hlpos (by decide)
    have hidx1 : (l.insertionSort (fun a b => a ≤ b)).length / 2 - 1
        < (l.insertionSort (fun a b => a ≤ b)).length :=
      lt_of_le_of_lt (Nat.sub_le _ _) hidx2
    obtain ⟨ha1, ha2⟩ := hbs _ (getD_mem_of_lt hidx1)
    obtain ⟨hb1, hb2⟩ := hbs _ (getD_mem_of_lt hidx2)
    constructor <;> [linarith; linarith]

/-- Claim C7: the claim as stated is false on the code.  Strategy 2 of
the three-strategy resolver (`src/backend/server.js`) computes the
component-wise `AVG` — the mean — over all rows with a stored location
and applies no bounding-box exclusion: on a table with an out-of-box
outlier it returns latitude 130/3 (≈ 43.3, outside India) where the
claimed bounding-box-filtered median is 15. -/
theorem c7_counterexample :
    (pincodeDbExactMean c7Table "560001").map PinResolution.latitude = some (130 / 3)
    ∧ (pincodeLookupMedian c7Table "560001").map PinResolution.latitude = some 15
    ∧ ((130 : ℚ) / 3) ≠ 15
    ∧ inIndiaBbox (130 / 3, 97) = false
    ∧ (pincodeDbExactMean c7Table "560001").map PinResolution.longitude = some 97 := by
  refine ⟨?_, ?_, ?_, ?_, ?_⟩ <;> decide

/-- Claim C7 (amended): the `AVG`-based strategy 2 of
`src/backend/server.js` ignores the bounding box (`c7_counterexample`);
the single-strategy pincode endpoint of `src/unnamed/part_004` is the one
that excludes out-of-box facilities and takes the per-column
`PERCENTILE_CONT(0.5)` median, so every coordinate it returns lies inside
the India bounding box. -/
theorem c7_median_in_bbox (table : List PinRow) (code : String) (res : PinResolution)
    (h : pincodeLookupMedian table code = some res) :
    6 ≤ res.latitude ∧ res.latitude ≤ 37.5
    ∧ 68 ≤ res.longitude ∧ res.longitude ≤ 97.5 := by
  simp only [pincodeLookupMedian] at h
  split at h
  · exact absurd h (by simp)
  · rename_i r0 hh
    cases h
    rename_i hrows
    have hr0rows : r0 ∈ List.filter (fun r =>
        decide (r.pincode = code)
          && (match r.location with
              | none => false
              | some p => inIndiaBbox p)) table := List.mem_of_mem_head? (by
      rw [hh]
      rfl)
    have hr0grp : r0 ∈ (List.filter (fun r =>
        decide (r.pincode = code)
          && (match r.location with
              | none => false
              | some p => inIndiaBbox p)) table).filter (fun r =>
        decide (r.state = r0.state) && decide (r.district = r0.district)) := by
      rw [List.mem_filter]
      exact ⟨hr0rows, by simp⟩
    have hbounds : ∀ r ∈ (List.filter (fun r =>
        decide (r.pincode = code)
          && (match r.location with
              | none => false
              | some p => inIndiaBbox p)) table).filter (fun r =>
        decide (r.state = r0.state) && decide (r.district = r0.district)),
        (6 ≤ pinLat r ∧ pinLat r ≤ 37.5) ∧ (68 ≤ pinLng r ∧ pinLng r ≤ 97.5) := by
      intro r hr
      have hr2 := (List.mem_filter.mp (List.mem_filter.mp hr).1).2
      rw [Bool.and_eq_true] at hr2
      obtain ⟨_, hloc⟩ := hr2
      cases hlc : r.location with
      | none => rw [hlc] at hloc; exact absurd hloc (by simp)
      | some p =>
        rw [hlc] at hloc
        have hbb := of_decide_eq_true hloc
        have hlat : pinLat r = p.1 := by
          unfold pinLat
          rw [hlc]
          rfl
        have hlng : pinLng r = p.2 := by
          unfold pinLng
          rw [hlc]
          rfl
        rw [hlat, hlng]
        exact ⟨⟨hbb.1, hbb.2.1⟩, ⟨hbb.2.2.1, hbb.2.2.2⟩⟩
    have hgrpne : ((List.filter (fun r =>
        decide (r.pincode = code)
          && (match r.location with
              | none => false
              | some p => inIndiaBbox p)) table).filter (fun r =>
        decide (r.state = r0.state) && decide (r.district = r0.district))) ≠ [] :=
      List.ne_nil_of_mem hr0grp
    have hmapne : ∀ f : PinRow → ℚ, ((List.filter (fun r =>
        decide (r.pincode = code)
          && (match r.location with
              | none => false
              | some p => inIndiaBbox p)) table).filter (fun r =>
        decide (r.state = r0.state) && decide (r.district = r0.district))).map f ≠ [] := by
      intro f hnil
      exact hgrpne (List.map_eq_nil_iff.mp hnil)
    have hlatb := medianQ_bounds _ 6 (37.5 : ℚ) (hmapne pinLat) (by
      intro x hx
      obtain ⟨r, hr, rfl⟩ := List.mem_map.mp hx
      exact (hbounds r hr).1)
    have hlngb := medianQ_bounds _ 68 (97.5 : ℚ) (hmapne pinLng) (by
      intro x hx
      obtain ⟨r, hr, rfl⟩ := List.mem_map.mp hx
      exact (hbounds r hr).2)
    exact ⟨hlatb.1, hlatb.2, hlngb.1, hlngb.2⟩

/-- Closed witness for `c7_median_in_bbox` on the outlier table. -/
theorem c7_witness :
    pincodeLookupMedian c7Table "560001"
      = some ⟨15, 141 / 2, 2, "Karnataka", "Bengaluru Urban"⟩
    ∧ (6 ≤ (15 : ℚ) ∧ (15 : ℚ) ≤ 37.5
        ∧ 68 ≤ ((141 : ℚ) / 2) ∧ ((141 : ℚ) / 2) ≤ 97.5) :=
  ⟨by decide,
    c7_median_in_bbox c7Table "560001"
      ⟨15, 141 / 2, 2, "Karnataka", "Bengaluru Urban"⟩ (by decide)⟩
